import Mathlib

/-!
Verification development for the runner engine of go-rancher-gen
(src/runner.go).  The Go code is shallowly embedded: the filesystem,
the metadata client and the shell are modelled as explicit oracle
inputs, and the observable actions of a poll cycle (comparisons,
staging-file creation, destination writes, stdout writes, command
executions, back-off sleeps) are recorded in an event trace.
Go strings are modelled as Lean `String`; byte slices as `List Nat`;
the md5 digest is an explicit digest-function parameter.
-/

namespace RancherGen

/-- The literal character with code 123 (opening curly brace). -/
def lbrace : Char := Char.ofNat 123

/-- The literal character with code 125 (closing curly brace). -/
def rbrace : Char := Char.ofNat 125

/-- Word-or-dot characters, as matched by the Go regexp character class
used in `parseCmdTemplate` (runner.go:285): Go's RE2 class is
ASCII `0-9A-Za-z_` plus the explicit dot. -/
def isWordDot (c : Char) : Bool :=
  c.isAlpha || c.isDigit || c = '_' || c = '.'

/-- Whether `pre` is a leading segment of `l` (Go's internal prefix test
used by `strings.Replace`). -/
def beginsWith : List Char → List Char → Bool
  | [], _ => true
  | _ :: _, [] => false
  | a :: as, b :: bs => a = b && beginsWith as bs

/-- Go `strings.Contains s sub`: `sub` occurs somewhere in `s`. -/
def containsSub : List Char → List Char → Bool
  | [], sub => sub.isEmpty
  | s@(_ :: rest), sub => beginsWith sub s || containsSub rest sub

/-- Fuel-driven worker for `replaceAll`.  The fuel is an upper bound on
the number of scan steps; `replaceAll` supplies the input length, which
suffices because every step consumes at least one character. -/
def replaceAllF (old new : List Char) : Nat → List Char → List Char
  | _, [] => []
  | 0, s => s
  | fuel + 1, c :: rest =>
    if old ≠ [] ∧ beginsWith old (c :: rest) then
      new ++ replaceAllF old new fuel (List.drop (old.length - 1) rest)
    else
      c :: replaceAllF old new fuel rest

/-- Go `strings.Replace s old new -1` for a non-empty `old`: replace all
non-overlapping occurrences, scanning left to right (runner.go:218,298,304). -/
def replaceAll (s old new : List Char) : List Char :=
  replaceAllF old new s.length s

/-- `replaceAll` lifted to `String`. -/
def replaceStr (s old new : String) : String :=
  String.mk (replaceAll s.data old.data new.data)

/-- Go `strings.Split s ":"` (runner.go:248): split on every colon,
keeping empty fields. -/
def splitOnColon : List Char → List (List Char)
  | [] => [[]]
  | c :: rest =>
    if c = ':' then [] :: splitOnColon rest
    else
      match splitOnColon rest with
      | g :: gs => (c :: g) :: gs
      | [] => [[c]]

/-- Whether a character is one of the two curly braces — the cutset of
Go `strings.Trim key "{}"` (runner.go:290). -/
def isBrace (c : Char) : Bool := c = lbrace || c = rbrace

/-- Go `strings.Trim s "{}"`: drop braces from both ends. -/
def trimBraces (s : List Char) : List Char :=
  ((s.dropWhile isBrace).reverse.dropWhile isBrace).reverse

/-- Go `strings.Replace(key, ".", "", 1)` guarded by
`strings.Index(key, ".") == 0` (runner.go:291-293): when the key starts
with a dot, that first occurrence is the leading dot, so exactly the
leading dot is removed. -/
def stripLeadingDot (l : List Char) : List Char :=
  match l with
  | '.' :: rest => rest
  | _ => l

/-- The portion of `l` after its first dot, if any. -/
def afterFirstDotAux : List Char → Option (List Char)
  | [] => none
  | c :: rest => if c = '.' then some rest else afterFirstDotAux rest

/-- The last element of Go `strings.SplitAfterN(key, ".", 2)`
(runner.go:296-297): everything after the first dot, or the whole key
when it has no dot. -/
def splitAfterLabel (key : List Char) : List Char :=
  match afterFirstDotAux key with
  | some rest => rest
  | none => key

/-- The literal token `{{staging}}` replaced inside check commands
(runner.go:218). -/
def stagingToken : String :=
  String.mk (lbrace :: lbrace :: 's' :: 't' :: 'a' :: 'g' :: 'i' :: 'n' :: 'g' :: [rbrace, rbrace])

/-- Build the two-brace token text `{{key}}` used in command templates. -/
def tokStr (key : String) : String :=
  String.mk (lbrace :: lbrace :: (key.data ++ [rbrace, rbrace]))

/-! ## Data model (structs used by runner.go)

The struct definitions live in a file of the repository that is not part
of src/; the fields below are modelled from the spec (§3 DATA MODEL) and
agree with every field access in runner.go. -/

/-- Modelled from the spec: the `Host` struct
(`{UUID, Name, Address, Hostname, Labels}`), §3 of the spec; matches the
composite literal in runner.go:373-379. -/
structure Host where
  UUID : String
  Name : String
  Address : String
  Hostname : String
  Labels : List (String × String)
deriving DecidableEq

/-- Modelled from the spec: the `Container` struct
(`{Name, Address, Stack, Service, Health, State, Labels, Host}`), §3 of
the spec; matches the composite literal in runner.go:385-396. -/
structure Container where
  Name : String
  Address : String
  Stack : String
  Service : String
  Health : String
  State : String
  Labels : List (String × String)
  CHost : Host
deriving DecidableEq

/-- Modelled from the spec: the `Template` configuration struct
(`{Source, Dest, CheckCmd, NotifyCmd, NotifyLbl, NotifyOutput, Staging}`),
§3 of the spec; matches every field access in runner.go. -/
structure Template where
  Source : String
  Dest : String
  CheckCmd : String
  NotifyCmd : String
  NotifyLbl : String
  NotifyOutput : Bool
  Staging : String
deriving DecidableEq

/-- Go map lookup `c.Labels[label]` (runner.go:298): the stored value,
or the zero value `""` when the key is absent. -/
def lookupLabel (labels : List (String × String)) (k : String) : String :=
  match labels.find? (fun p => p.1 = k) with
  | some p => p.2
  | none => ""

/-- The field names reported by `structs.New(c).Fields()` for `Container`
(runner.go:287,301): the struct's field set, modelled from the spec's
data model. The Go struct field is called `Host`. -/
def containerFieldNames : List String :=
  ["Name", "Address", "Stack", "Service", "Health", "State", "Labels", "Host"]

/-- `cStruct.Field(key).Value().(string)` (runner.go:303): the value of a
string field; for the non-string fields `Labels` and `Host` the Go type
assertion fails and yields the zero value `""`. -/
def containerFieldString (c : Container) : String → String
  | "Name" => c.Name
  | "Address" => c.Address
  | "Stack" => c.Stack
  | "Service" => c.Service
  | "Health" => c.Health
  | "State" => c.State
  | _ => ""

/-! ## Per-container command templating (runner.go:283-311) -/

/-- Try to match the Go regexp `{{[\w\.]*}}` at the head of `l`
(runner.go:285).  The character class excludes the closing brace, so the
greedy class match followed by the literal `}}` is exactly RE2's
behaviour here; on success the matched token text and the remaining
input are returned. -/
def tryToken (l : List Char) : Option (List Char × List Char) :=
  match l with
  | a :: b :: rest =>
    if a = lbrace ∧ b = lbrace then
      match rest.dropWhile isWordDot with
      | c :: d :: tail =>
        if c = rbrace ∧ d = rbrace then
          some (a :: b :: (rest.takeWhile isWordDot ++ [c, d]), tail)
        else none
      | _ => none
    else none
  | _ => none

/-- Fuel-driven worker for `findTokens`: leftmost, non-overlapping
matches of the token regexp, advancing one character on failure.  The
fuel is an upper bound on scan steps; each step consumes at least one
character, so the input length suffices. -/
def findTokensF : Nat → List Char → List (List Char)
  | _, [] => []
  | 0, _ => []
  | fuel + 1, c :: rest =>
    match tryToken (c :: rest) with
    | some p => p.1 :: findTokensF fuel p.2
    | none => findTokensF fuel rest

/-- Go `reg.FindAll([]byte(ret), -1)` for `reg = {{[\w\.]*}}`
(runner.go:286): all leftmost non-overlapping token matches. -/
def findTokens (l : List Char) : List (List Char) :=
  findTokensF l.length l

/-- One iteration of the match loop of `parseCmdTemplate`
(runner.go:289-308): trim the braces from the token, strip a leading
dot, then either substitute a label value (when the key contains
`Labels.`), substitute a struct field's string value (when the key names
a `Container` field), or leave `ret` unchanged. -/
def substituteToken (c : Container) (ret : List Char) (tok : List Char) : List Char :=
  let key := stripLeadingDot (trimBraces tok)
  if containsSub key ("Labels.".data) then
    replaceAll ret tok (lookupLabel c.Labels (String.mk (splitAfterLabel key))).data
  else if containerFieldNames.contains (String.mk key) then
    replaceAll ret tok (containerFieldString c (String.mk key)).data
  else ret

/-- `parseCmdTemplate` (runner.go:283-311): find all `{{...}}` tokens in
the original command, then fold the substitutions over the evolving
result.  It never fails (the Go function always returns a nil error). -/
def parseCmdTemplate (c : Container) (command : String) : String :=
  String.mk ((findTokens command.data).foldl (substituteToken c) command.data)

/-! ## Label-group resolution (runner.go:240-281) -/

/-- The `(nLabelName, nLabelValue)` pair extracted from the selector
(runner.go:248-257): `split[0]`, and `split[1]` when the split has more
than one part, `""` otherwise. -/
def labelNameValue (label : String) : String × String :=
  match splitOnColon label.data with
  | n :: v :: _ => (String.mk n, String.mk v)
  | [n] => (String.mk n, "")
  | [] => ("", "")

/-- `getLabelGroup` (runner.go:240-281).  The fresh context built by
`createContext` at runner.go:260 is passed in as the `ctx` oracle: on
context failure the error is returned (after the back-off sleep); on
success every container is scanned and appended once per label entry
matching the selector (Go map keys are unique, so at most once per
container). -/
def getLabelGroup (ctx : Except String (List Container)) (label : String) :
    Except String (List Container) :=
  if label = "" then
    .error "NotifyLabelGroup failed: no label specified"
  else
    let nv := labelNameValue label
    match ctx with
    | .error e => .error ("Failed to create context from Rancher Metadata: " ++ e)
    | .ok containers =>
      .ok (containers.flatMap (fun c =>
        (c.Labels.filter
            (fun p => p.1 = nv.1 && (nv.2 = "" || p.2 = nv.2))).map
          (fun _ => c)))

/-! ## The runner: environment oracles, events, outcomes -/

/-- State of the destination file for one template:
absent, readable with the given byte content, or failing on read. -/
inductive FileState
  | missing
  | present (content : List Nat)
  | unreadable
deriving DecidableEq

/-- Filesystem/renderer oracle for processing one template. -/
structure TemplateEnv where
  /-- `os.Stat(t.Source)` succeeds (runner.go:125). -/
  sourceExists : Bool
  /-- Rendered bytes of the template (runner.go:129-145); `none` models
  read/parse/render failure, which is `log.Fatal` in the code. -/
  renderResult : Option (List Nat)
  /-- State of the destination file `t.Dest`. -/
  destFile : FileState
  /-- Result of `createStagingFile` (runner.go:165): the staging path. -/
  stagingResult : Except String String
  /-- Result of `copyStagingToDestination` (runner.go:172), the rename
  with its cross-device fallback already folded in. -/
  copyResult : Except String Unit

/-- Shell oracle: whether a given command line exits successfully
(runner.go:462-493). -/
structure CmdEnv where
  checkOk : String → Bool
  notifyOk : String → Bool

/-- Observable actions of a cycle, in order of occurrence. -/
inductive Ev
  /-- `processTemplate` was entered for the template with this source
  and destination. -/
  | tmplStart (src dest : String)
  /-- Rendered bytes written to standard output (runner.go:149). -/
  | stdoutWrite (content : List Nat)
  /-- `sameContent` compared the rendered bytes with this destination
  (runner.go:154). -/
  | compared (dest : String)
  /-- A staging file was created at this path (runner.go:165). -/
  | stagingCreated (path : String)
  /-- The destination file was written (runner.go:172). -/
  | destWritten (dest : String)
  /-- The check command line was executed (runner.go:219). -/
  | checkRun (cmd : String)
  /-- The notify command line was executed (runner.go:232). -/
  | notifyRun (cmd : String)
  /-- `createContext` succeeded for the cycle (runner.go:99). -/
  | ctxBuilt
  /-- The fixed 2-second back-off sleep ran (runner.go:87,101). -/
  | slept
deriving DecidableEq

/-- Result of a function that Go reports via `error` / `log.Fatal`. -/
inductive Outcome
  | ok
  | err (msg : String)
  | fatal (msg : String)
deriving DecidableEq

/-- `computeFileMd5` (runner.go:524-541) with the digest function as a
parameter: a failing `os.Stat` (missing file) yields `""` with no error;
an unreadable file yields an error; otherwise the digest of the file
content. -/
def computeFileMd5 (hash : List Nat → String) : FileState → Except String String
  | .missing => .ok ""
  | .unreadable => .error "read error"
  | .present content => .ok (hash content)

/-- `sameContent` (runner.go:503-522): compare the digest of the
rendered bytes with the digest of the destination file. -/
def sameContent (hash : List Nat → String) (content : List Nat) (dest : FileState) :
    Except String Bool :=
  match computeFileMd5 hash dest with
  | .error e => .error ("Could not calculate checksum: " ++ e)
  | .ok fileMd5 => .ok (fileMd5 = hash content)

/-- The notify half of `runCheckNotify` (runner.go:224-235): fall back
to `t.NotifyCmd` when the parsed command is empty; skip a zero-length
command. -/
def notifyPart (cenv : CmdEnv) (t : Template) (parsedNotify : String) :
    Outcome × List Ev :=
  let notifyCmd := if parsedNotify ≠ "" then parsedNotify else t.NotifyCmd
  if notifyCmd ≠ "" then
    if cenv.notifyOk notifyCmd then (.ok, [.notifyRun notifyCmd])
    else (.err "Notify command failed", [.notifyRun notifyCmd])
  else (.ok, [])

/-- `runCheckNotify` (runner.go:207-238): resolve the effective check
command (fallback to `t.CheckCmd`), substitute the `{{staging}}` token,
run the check; on check failure return without running notify; then run
the notify half. -/
def runCheckNotify (cenv : CmdEnv) (t : Template) (parsedCheck parsedNotify : String) :
    Outcome × List Ev :=
  let checkCmd := if parsedCheck ≠ "" then parsedCheck else t.CheckCmd
  if checkCmd ≠ "" then
    let command := replaceStr checkCmd stagingToken t.Staging
    if cenv.checkOk command then
      let n := notifyPart cenv t parsedNotify
      (n.1, .checkRun command :: n.2)
    else (.err "Check command failed", [.checkRun command])
  else
    notifyPart cenv t parsedNotify

/-- One fan-out iteration (runner.go:192-200): parse both commands for
the container and run the check/notify pair. -/
def perContainerRun (cenv : CmdEnv) (t : Template) (c : Container) : Outcome × List Ev :=
  runCheckNotify cenv t (parseCmdTemplate c t.CheckCmd) (parseCmdTemplate c t.NotifyCmd)

/-- The command phase of `processTemplate` (runner.go:185-202): direct
mode runs one check/notify pair; label-fanout mode resolves the label
group (errors discarded, yielding an empty list) and runs one pair per
matching container, discarding each pair's error. -/
def commandPhase (cenv : CmdEnv) (ctx : Except String (List Container)) (t : Template) :
    List Ev :=
  if t.NotifyLbl = "" then
    (runCheckNotify cenv t "" "").2
  else
    let toNotify := match getLabelGroup ctx t.NotifyLbl with
      | .ok cs => cs
      | .error _ => []
    (toNotify.map (fun c => (perContainerRun cenv t c).2)).flatten

/-- `processTemplate` (runner.go:121-205).  When both `Source` and
`Dest` are set: render, compare, stage, write, then fall through to the
command phase with `Staging` set to the staging path.  The inner
`t.Dest = ""` test (runner.go:147-151) is kept even though the outer
guard makes it unreachable.  When `Source` or `Dest` is empty the
template block is skipped and only the command phase runs.  `ctx` is the
context that `createContext` would produce when `getLabelGroup` re-fetches
it (runner.go:260). -/
def processTemplate (hash : List Nat → String) (tenv : TemplateEnv) (cenv : CmdEnv)
    (ctx : Except String (List Container)) (t : Template) : Outcome × List Ev :=
  if t.Source ≠ "" ∧ t.Dest ≠ "" then
    if !tenv.sourceExists then
      (.fatal ("Template is missing: " ++ t.Source), [.tmplStart t.Source t.Dest])
    else
      match tenv.renderResult with
      | none => (.fatal ("Could not render template: " ++ t.Source), [.tmplStart t.Source t.Dest])
      | some content =>
        if t.Dest = "" then
          (.ok, [.tmplStart t.Source t.Dest, .stdoutWrite content])
        else
          match sameContent hash content tenv.destFile with
          | .error _ =>
            (.err ("Could not compare content for " ++ t.Dest),
             [.tmplStart t.Source t.Dest, .compared t.Dest])
          | .ok true => (.ok, [.tmplStart t.Source t.Dest, .compared t.Dest])
          | .ok false =>
            match tenv.stagingResult with
            | .error e => (.err e, [.tmplStart t.Source t.Dest, .compared t.Dest])
            | .ok stagingFile =>
              match tenv.copyResult with
              | .error _ =>
                (.err ("Could not write destination file " ++ t.Dest),
                 [.tmplStart t.Source t.Dest, .compared t.Dest, .stagingCreated stagingFile])
              | .ok _ =>
                (.ok, [.tmplStart t.Source t.Dest, .compared t.Dest,
                       .stagingCreated stagingFile, .destWritten t.Dest]
                      ++ commandPhase cenv ctx { t with Staging := stagingFile })
  else
    (.ok, .tmplStart t.Source t.Dest :: commandPhase cenv ctx t)

/-- The per-template loop of `poll` (runner.go:106-110): process the
configured templates in order, stopping at (and returning) the first
error. -/
def processAll (hash : List Nat → String) (cenv : CmdEnv)
    (ctx : Except String (List Container)) :
    List (Template × TemplateEnv) → Outcome × List Ev
  | [] => (.ok, [])
  | (t, tenv) :: rest =>
    match processTemplate hash tenv cenv ctx t with
    | (.ok, evs) =>
      let r := processAll hash cenv ctx rest
      (r.1, evs ++ r.2)
    | (o, evs) => (o, evs)

/-- Persistent runner state across cycles: the last-seen metadata
version token (runner.go:33, initialised to `"init"`). -/
structure RunnerState where
  Version : String
deriving DecidableEq

/-- Metadata oracle for one poll cycle. -/
structure PollEnv where
  /-- Result of `r.Client.GetVersion()` (runner.go:85). -/
  getVersion : Except String String
  /-- Result of `r.createContext()` (runner.go:99); also handed to
  `getLabelGroup`'s re-fetch within the same cycle. -/
  ctx : Except String (List Container)

/-- `poll` (runner.go:83-119): fetch the version token (failure: sleep,
return the error); equal tokens short-circuit with a no-op; otherwise
commit the new token, build the context (failure: sleep, return the
error), and process all templates. -/
def poll (hash : List Nat → String) (cenv : CmdEnv) (penv : PollEnv)
    (templates : List (Template × TemplateEnv)) (st : RunnerState) :
    RunnerState × Outcome × List Ev :=
  match penv.getVersion with
  | .error e => (st, .err ("Failed to get Metadata version: " ++ e), [.slept])
  | .ok newVersion =>
    if st.Version = newVersion then (st, .ok, [])
    else
      let st1 : RunnerState := { Version := newVersion }
      match penv.ctx with
      | .error e =>
        (st1, .err ("Failed to create context from Rancher Metadata: " ++ e), [.slept])
      | .ok cs =>
        let r := processAll hash cenv (.ok cs) templates
        (st1, r.1, .ctxBuilt :: r.2)

/-! ## General lemmas about the model -/

/-- Every event list produced by `processTemplate` begins with the
`tmplStart` marker of the processed template. -/
theorem processTemplate_evs_head (hash : List Nat → String) (tenv : TemplateEnv)
    (cenv : CmdEnv) (ctx : Except String (List Container)) (t : Template) :
    ∃ l, (processTemplate hash tenv cenv ctx t).2 = Ev.tmplStart t.Source t.Dest :: l := by
  unfold processTemplate
  repeat' split
  all_goals exact ⟨_, rfl⟩

/-- The notify half only ever records notify executions. -/
theorem notifyPart_evs (cenv : CmdEnv) (t : Template) (pn : String) :
    ∀ e ∈ (notifyPart cenv t pn).2, ∃ cmd, e = Ev.notifyRun cmd := by
  intro e he
  simp only [notifyPart] at he
  split_ifs at he <;> simp at he <;> exact ⟨_, he⟩

/-- `runCheckNotify` only ever records check and notify executions. -/
theorem runCheckNotify_evs (cenv : CmdEnv) (t : Template) (pc pn : String) :
    ∀ e ∈ (runCheckNotify cenv t pc pn).2,
      (∃ cmd, e = Ev.checkRun cmd) ∨ (∃ cmd, e = Ev.notifyRun cmd) := by
  intro e he
  simp only [runCheckNotify] at he
  split_ifs at he
  all_goals
    first
      | exact Or.inr (notifyPart_evs cenv t pn e he)
      | (simp at he
         exact Or.inl ⟨_, he⟩)
      | (rcases List.mem_cons.mp he with h | h
         exacts [Or.inl ⟨_, h⟩, Or.inr (notifyPart_evs cenv t pn e h)])

/-- The command phase only ever records check and notify executions. -/
theorem commandPhase_evs (cenv : CmdEnv) (ctx : Except String (List Container))
    (t : Template) :
    ∀ e ∈ commandPhase cenv ctx t,
      (∃ cmd, e = Ev.checkRun cmd) ∨ (∃ cmd, e = Ev.notifyRun cmd) := by
  intro e he
  unfold commandPhase at he
  split at he
  · exact runCheckNotify_evs cenv t "" "" e he
  · rw [List.mem_flatten] at he
    obtain ⟨l, hl, hel⟩ := he
    rw [List.mem_map] at hl
    obtain ⟨c, _, rfl⟩ := hl
    exact runCheckNotify_evs cenv t _ _ e hel

/-! ## Concrete objects shared by witnesses -/

/-- A digest-function stand-in for md5 used by concrete witnesses. -/
def hashConst : List Nat → String := fun _ => "h"

/-- A shell oracle on which every command succeeds. -/
def cenvTrue : CmdEnv := ⟨fun _ => true, fun _ => true⟩

/-- A filesystem oracle whose destination already holds the rendered
bytes `[1, 2]`. -/
def tenvSame : TemplateEnv :=
  { sourceExists := true, renderResult := some [1, 2],
    destFile := .present [1, 2], stagingResult := .ok "/tmp/.a-1",
    copyResult := .ok () }

/-- A template with both a source and a destination. -/
def tWithDest : Template :=
  { Source := "a.tmpl", Dest := "/etc/a", CheckCmd := "chk",
    NotifyCmd := "ntf", NotifyLbl := "", NotifyOutput := false, Staging := "" }

/-! ## C1 -/

/-- C1: for every processed template with a destination, if the digest of
the rendered bytes equals the digest of the existing destination file,
the cycle treats the template as a no-op: no staging file is created,
the destination file is not written, and neither the check command nor
the notify command is invoked for that template in that cycle
(runner.go:159-162). -/
theorem C1_equal_digest_is_noop
    (hash : List Nat → String) (tenv : TemplateEnv) (cenv : CmdEnv)
    (ctx : Except String (List Container)) (t : Template) (content d : List Nat)
    (hs : t.Source ≠ "") (hd : t.Dest ≠ "")
    (hex : tenv.sourceExists = true) (hr : tenv.renderResult = some content)
    (hf : tenv.destFile = FileState.present d) (hdig : hash content = hash d) :
    processTemplate hash tenv cenv ctx t =
      (.ok, [Ev.tmplStart t.Source t.Dest, Ev.compared t.Dest]) ∧
    (∀ p, Ev.stagingCreated p ∉ (processTemplate hash tenv cenv ctx t).2) ∧
    (∀ p, Ev.destWritten p ∉ (processTemplate hash tenv cenv ctx t).2) ∧
    (∀ cmd, Ev.checkRun cmd ∉ (processTemplate hash tenv cenv ctx t).2) ∧
    (∀ cmd, Ev.notifyRun cmd ∉ (processTemplate hash tenv cenv ctx t).2) := by
  have h1 : processTemplate hash tenv cenv ctx t =
      (.ok, [Ev.tmplStart t.Source t.Dest, Ev.compared t.Dest]) := by
    unfold processTemplate
    rw [if_pos ⟨hs, hd⟩]
    simp [hex, hr, if_neg hd, sameContent, computeFileMd5, hf, hdig]
  refine ⟨h1, ?_, ?_, ?_, ?_⟩ <;> (intro x; rw [h1]; simp)

/-- Witness for C1 at a concrete input: destination already holds the
rendered content, processing only compares and stops. -/
theorem C1_equal_digest_is_noop_witness :
    tWithDest.Source ≠ "" ∧ tWithDest.Dest ≠ "" ∧
    processTemplate hashConst tenvSame cenvTrue (.ok []) tWithDest =
      (.ok, [Ev.tmplStart "a.tmpl" "/etc/a", Ev.compared "/etc/a"]) :=
  ⟨by decide, by decide,
   (C1_equal_digest_is_noop hashConst tenvSame cenvTrue (.ok []) tWithDest
     [1, 2] [1, 2] (by decide) (by decide) rfl rfl rfl rfl).1⟩

/-! ## C4 -/

/-- A template in the spec's "print mode": a source but no destination. -/
def tPrintEx : Template :=
  { Source := "conf.tmpl", Dest := "", CheckCmd := "reload",
    NotifyCmd := "", NotifyLbl := "", NotifyOutput := false, Staging := "" }

/-- A filesystem oracle that would happily render `conf.tmpl`. -/
def tenvPrintEx : TemplateEnv :=
  { sourceExists := true, renderResult := some [1, 2, 3],
    destFile := .missing, stagingResult := .ok "/tmp/.x-1", copyResult := .ok () }

/-- C4: evaluation of the code at the failing input.  For a template with
an empty destination the rendered bytes are NOT written to stdout and the
pipeline does NOT stop: the guard at runner.go:123 requires both a source
and a destination, so the whole rendering block (including the print
branch at runner.go:147-151, which is unreachable dead code) is skipped
and the check/notify phase runs instead. -/
theorem C4_print_mode_unreachable :
    processTemplate hashConst tenvPrintEx cenvTrue (.ok []) tPrintEx =
      (.ok, [Ev.tmplStart "conf.tmpl" "", Ev.checkRun "reload"]) ∧
    Ev.stdoutWrite [1, 2, 3] ∉
      (processTemplate hashConst tenvPrintEx cenvTrue (.ok []) tPrintEx).2 := by
  constructor
  · decide
  · decide

/-! ## C10 -/

/-- C10: for every template whose `Source` or `Dest` is empty, processing
performs no rendering, no content comparison and no file write, yet still
executes the check/notify phase (direct or label-fanout mode) with an
empty staging path, so `{{staging}}` in a check command is replaced by
the empty string (runner.go:121-123,180-202,217-218). -/
theorem C10_command_only_template
    (hash : List Nat → String) (tenv : TemplateEnv) (cenv : CmdEnv)
    (ctx : Except String (List Container)) (t : Template)
    (hsd : t.Source = "" ∨ t.Dest = "") (hstg : t.Staging = "") :
    processTemplate hash tenv cenv ctx t =
      (.ok, Ev.tmplStart t.Source t.Dest :: commandPhase cenv ctx t) ∧
    (∀ e ∈ commandPhase cenv ctx t,
      (∃ cmd, e = Ev.checkRun cmd) ∨ (∃ cmd, e = Ev.notifyRun cmd)) ∧
    (t.NotifyLbl = "" → t.CheckCmd ≠ "" →
      Ev.checkRun (replaceStr t.CheckCmd stagingToken "") ∈ commandPhase cenv ctx t) := by
  refine ⟨?_, commandPhase_evs cenv ctx t, ?_⟩
  · unfold processTemplate
    rcases hsd with h | h <;> simp [h]
  · intro hlbl hcc
    unfold commandPhase
    rw [if_pos hlbl]
    simp only [runCheckNotify, hstg]
    split_ifs <;> simp_all

/-- A command-only template (no source, no destination) whose check
command contains the `{{staging}}` token. -/
def tCmdOnlyEx : Template :=
  { Source := "", Dest := "", CheckCmd := "c " ++ stagingToken ++ " d",
    NotifyCmd := "n", NotifyLbl := "", NotifyOutput := false, Staging := "" }

/-- Witness for C10: a command-only template whose check command carries
the `{{staging}}` token, which is replaced by the empty string. -/
theorem C10_command_only_template_witness :
    (tCmdOnlyEx.Source = "" ∨ tCmdOnlyEx.Dest = "") ∧ tCmdOnlyEx.Staging = "" ∧
    processTemplate hashConst tenvSame cenvTrue (.ok []) tCmdOnlyEx =
      (.ok, Ev.tmplStart "" "" :: commandPhase cenvTrue (.ok []) tCmdOnlyEx) ∧
    Ev.checkRun (replaceStr tCmdOnlyEx.CheckCmd stagingToken "") ∈
      commandPhase cenvTrue (.ok []) tCmdOnlyEx :=
  ⟨Or.inl rfl, rfl,
   (C10_command_only_template hashConst tenvSame cenvTrue (.ok []) tCmdOnlyEx
     (Or.inl rfl) rfl).1,
   (C10_command_only_template hashConst tenvSame cenvTrue (.ok []) tCmdOnlyEx
     (Or.inl rfl) rfl).2.2 rfl (by decide)⟩

/-! ## Poll-cycle lemmas -/

/-- When every template in the list processes successfully, the whole
loop succeeds and the trace contains the start marker of every
configured template. -/
theorem processAll_all_ok (hash : List Nat → String) (cenv : CmdEnv)
    (ctx : Except String (List Container)) (ts : List (Template × TemplateEnv))
    (h : ∀ p ∈ ts, (processTemplate hash p.2 cenv ctx p.1).1 = .ok) :
    (processAll hash cenv ctx ts).1 = .ok ∧
    ∀ p ∈ ts, Ev.tmplStart p.1.Source p.1.Dest ∈ (processAll hash cenv ctx ts).2 := by
  induction ts with
  | nil => simp [processAll]
  | cons hd rest ih =>
    obtain ⟨t, tenv⟩ := hd
    have h1 := h (t, tenv) (List.mem_cons_self _ _)
    have hrest : ∀ p ∈ rest, (processTemplate hash p.2 cenv ctx p.1).1 = .ok :=
      fun p hp => h p (List.mem_cons_of_mem _ hp)
    obtain ⟨hok, hmem⟩ := ih hrest
    obtain ⟨l, hl⟩ := processTemplate_evs_head hash tenv cenv ctx t
    have hpa : processAll hash cenv ctx ((t, tenv) :: rest) =
        ((processAll hash cenv ctx rest).1,
         (processTemplate hash tenv cenv ctx t).2 ++ (processAll hash cenv ctx rest).2) := by
      rcases hq : processTemplate hash tenv cenv ctx t with ⟨o, evs⟩
      rw [hq] at h1
      simp only at h1
      subst h1
      simp [processAll, hq]
    rw [hpa]
    refine ⟨hok, ?_⟩
    intro p hp
    rcases List.mem_cons.mp hp with rfl | hp2
    · rw [hl]
      simp
    · exact List.mem_append.mpr (Or.inr (hmem p hp2))

/-! ## C5 -/

/-- C5: for every poll cycle, an unchanged version token short-circuits
the cycle with a no-op (no context rebuild, no template processed,
runner.go:91-94); a changed token triggers a full context rebuild
followed by processing of every configured template (runner.go:96-110).
The token is consulted only through the equality test. -/
theorem C5_version_diff_contract
    (hash : List Nat → String) (cenv : CmdEnv) (penv : PollEnv)
    (templates : List (Template × TemplateEnv)) (st : RunnerState) (v : String)
    (hv : penv.getVersion = .ok v) :
    (st.Version = v → poll hash cenv penv templates st = (st, .ok, [])) ∧
    (st.Version ≠ v → ∀ cs, penv.ctx = .ok cs →
      (∀ p ∈ templates, (processTemplate hash p.2 cenv (.ok cs) p.1).1 = .ok) →
      poll hash cenv penv templates st =
        ({ Version := v }, .ok, .ctxBuilt :: (processAll hash cenv (.ok cs) templates).2) ∧
      ∀ p ∈ templates,
        Ev.tmplStart p.1.Source p.1.Dest ∈ (poll hash cenv penv templates st).2.2) := by
  constructor
  · intro heq
    simp [poll, hv, heq]
  · intro hne cs hctx hall
    obtain ⟨hok, hmem⟩ := processAll_all_ok hash cenv (.ok cs) templates hall
    have hpoll : poll hash cenv penv templates st =
        ({ Version := v }, .ok, .ctxBuilt :: (processAll hash cenv (.ok cs) templates).2) := by
      rcases hq : processAll hash cenv (.ok cs) templates with ⟨o, evs⟩
      rw [hq] at hok
      simp only at hok
      subst hok
      simp [poll, hv, hne, hctx, hq]
    refine ⟨hpoll, ?_⟩
    intro p hp
    rw [hpoll]
    exact List.mem_cons_of_mem _ (hmem p hp)

/-- A metadata oracle delivering a fresh version and a context. -/
def penvOkCtx : PollEnv := { getVersion := .ok "v1", ctx := .ok [] }

/-- Witness for C5: with the token already seen the cycle is a no-op;
with a new token the context is rebuilt and the configured template is
processed. -/
theorem C5_version_diff_contract_witness :
    poll hashConst cenvTrue penvOkCtx [(tWithDest, tenvSame)] { Version := "v1" } =
      ({ Version := "v1" }, .ok, []) ∧
    poll hashConst cenvTrue penvOkCtx [(tWithDest, tenvSame)] { Version := "init" } =
      ({ Version := "v1" }, .ok,
       .ctxBuilt :: (processAll hashConst cenvTrue (.ok []) [(tWithDest, tenvSame)]).2) ∧
    Ev.tmplStart tWithDest.Source tWithDest.Dest ∈
      (poll hashConst cenvTrue penvOkCtx [(tWithDest, tenvSame)] { Version := "init" }).2.2 :=
  ⟨(C5_version_diff_contract hashConst cenvTrue penvOkCtx [(tWithDest, tenvSame)]
      { Version := "v1" } "v1" rfl).1 rfl,
   ((C5_version_diff_contract hashConst cenvTrue penvOkCtx [(tWithDest, tenvSame)]
      { Version := "init" } "v1" rfl).2 (by decide) [] rfl (by decide)).1,
   ((C5_version_diff_contract hashConst cenvTrue penvOkCtx [(tWithDest, tenvSame)]
      { Version := "init" } "v1" rfl).2 (by decide) [] rfl (by decide)).2
     (tWithDest, tenvSame) (List.mem_cons_self _ _)⟩

/-! ## C2 -/

/-- C2 (amended): when the context build fails, the cycle sleeps the
fixed delay and returns the error, but the new version token has already
been committed (runner.go:98 precedes runner.go:99-103), so a subsequent
poll cycle that sees the same token short-circuits as a no-op: the
context rebuild and template processing for that version are NOT
re-attempted; they recur only when the token changes again. -/
theorem C2_ctx_failure_commits_version
    (hash : List Nat → String) (cenv : CmdEnv) (penv : PollEnv)
    (templates : List (Template × TemplateEnv)) (st : RunnerState) (v e : String)
    (hv : penv.getVersion = .ok v) (hne : st.Version ≠ v) (hctx : penv.ctx = .error e) :
    poll hash cenv penv templates st =
      ({ Version := v },
       .err ("Failed to create context from Rancher Metadata: " ++ e), [Ev.slept]) ∧
    (∀ penv2 : PollEnv, penv2.getVersion = .ok v →
      poll hash cenv penv2 templates (poll hash cenv penv templates st).1 =
        ({ Version := v }, .ok, [])) := by
  have h1 : poll hash cenv penv templates st =
      ({ Version := v },
       .err ("Failed to create context from Rancher Metadata: " ++ e), [Ev.slept]) := by
    simp [poll, hv, hne, hctx]
  refine ⟨h1, ?_⟩
  intro penv2 hv2
  rw [h1]
  simp [poll, hv2]

/-- A metadata oracle whose context fetch fails. -/
def penvFailCtx : PollEnv := { getVersion := .ok "v1", ctx := .error "boom" }

/-- Counterexample to C2 as stated: after a cycle whose context build
failed, the next cycle sees the same token "v1" and performs no context
rebuild and no template processing — the claimed re-attempt does not
happen. -/
theorem C2_retry_counterexample :
    poll hashConst cenvTrue penvFailCtx [(tWithDest, tenvSame)] { Version := "init" } =
      ({ Version := "v1" },
       .err "Failed to create context from Rancher Metadata: boom", [Ev.slept]) ∧
    poll hashConst cenvTrue penvOkCtx [(tWithDest, tenvSame)] { Version := "v1" } =
      ({ Version := "v1" }, .ok, []) ∧
    Ev.ctxBuilt ∉
      (poll hashConst cenvTrue penvOkCtx [(tWithDest, tenvSame)] { Version := "v1" }).2.2 ∧
    Ev.tmplStart "a.tmpl" "/etc/a" ∉
      (poll hashConst cenvTrue penvOkCtx [(tWithDest, tenvSame)] { Version := "v1" }).2.2 := by
  refine ⟨by decide, by decide, by decide, by decide⟩

/-- Witness for the amended C2 at a concrete input. -/
theorem C2_ctx_failure_commits_version_witness :
    poll hashConst cenvTrue penvFailCtx [(tWithDest, tenvSame)] { Version := "init" } =
      ({ Version := "v1" },
       .err "Failed to create context from Rancher Metadata: boom", [Ev.slept]) ∧
    poll hashConst cenvTrue penvOkCtx [(tWithDest, tenvSame)]
        (poll hashConst cenvTrue penvFailCtx [(tWithDest, tenvSame)] { Version := "init" }).1 =
      ({ Version := "v1" }, .ok, []) :=
  ⟨(C2_ctx_failure_commits_version hashConst cenvTrue penvFailCtx [(tWithDest, tenvSame)]
      { Version := "init" } "v1" "boom" rfl (by decide) rfl).1,
   (C2_ctx_failure_commits_version hashConst cenvTrue penvFailCtx [(tWithDest, tenvSame)]
      { Version := "init" } "v1" "boom" rfl (by decide) rfl).2 penvOkCtx rfl⟩

/-! ## C3 -/

/-- C3 (amended): a per-template error (content-comparison failure, or
write/rename failure after the fallback path) does NOT continue with the
next template: the per-template loop returns the error immediately
(runner.go:106-110), aborting the remaining templates for that cycle;
the error is then returned from `poll` (and logged by the interval
loop). -/
theorem C3_template_error_aborts_cycle
    (hash : List Nat → String) (cenv : CmdEnv) (penv : PollEnv)
    (t1 : Template) (te1 : TemplateEnv) (rest : List (Template × TemplateEnv))
    (st : RunnerState) (v : String) (cs : List Container) (m : String) (evs : List Ev)
    (hv : penv.getVersion = .ok v) (hne : st.Version ≠ v) (hctx : penv.ctx = .ok cs)
    (herr : processTemplate hash te1 cenv (.ok cs) t1 = (.err m, evs)) :
    poll hash cenv penv ((t1, te1) :: rest) st =
      ({ Version := v }, .err m, .ctxBuilt :: evs) := by
  simp [poll, hv, hne, hctx, processAll, herr]

/-- A filesystem oracle whose destination file cannot be read, so the
content comparison fails. -/
def tenvUnreadable : TemplateEnv := { tenvSame with destFile := .unreadable }

/-- The second configured template of the two-template cycle. -/
def tSecond : Template := { tWithDest with Source := "b.tmpl", Dest := "/etc/b" }

/-- Counterexample to C3 as stated: in a cycle with two configured
templates where the first fails with a content-comparison error, the
second template is never processed — the cycle aborts instead of
continuing with the next template. -/
theorem C3_continue_counterexample :
    poll hashConst cenvTrue penvOkCtx
        [(tWithDest, tenvUnreadable), (tSecond, tenvSame)] { Version := "init" } =
      ({ Version := "v1" }, .err "Could not compare content for /etc/a",
       [Ev.ctxBuilt, Ev.tmplStart "a.tmpl" "/etc/a", Ev.compared "/etc/a"]) ∧
    Ev.tmplStart "b.tmpl" "/etc/b" ∉
      (poll hashConst cenvTrue penvOkCtx
        [(tWithDest, tenvUnreadable), (tSecond, tenvSame)] { Version := "init" }).2.2 := by
  refine ⟨by decide, by decide⟩

/-- Witness for the amended C3 at a concrete input: the failing first
template aborts the cycle, leaving the second unprocessed. -/
theorem C3_template_error_aborts_cycle_witness :
    poll hashConst cenvTrue penvOkCtx
        [(tWithDest, tenvUnreadable), (tSecond, tenvSame)] { Version := "init" } =
      ({ Version := "v1" }, .err "Could not compare content for /etc/a",
       .ctxBuilt :: [Ev.tmplStart "a.tmpl" "/etc/a", Ev.compared "/etc/a"]) :=
  C3_template_error_aborts_cycle hashConst cenvTrue penvOkCtx tWithDest tenvUnreadable
    [(tSecond, tenvSame)] { Version := "init" } "v1" [] "Could not compare content for /etc/a"
    [Ev.tmplStart "a.tmpl" "/etc/a", Ev.compared "/etc/a"] rfl (by decide) rfl (by decide)

/-! ## C8 -/

/-- C8: the notify command runs iff the effective check command is empty
or exits successfully; a failing check skips the paired notify; and a
zero-length command string in either slot is silently skipped
(runner.go:207-238).  The effective commands include the fallback from
the parsed per-container command to the template's own command. -/
theorem C8_check_gates_notify (cenv : CmdEnv) (t : Template) (pc pn : String) :
    ((∃ cmd, Ev.notifyRun cmd ∈ (runCheckNotify cenv t pc pn).2) ↔
      ((if pn ≠ "" then pn else t.NotifyCmd) ≠ "" ∧
       ((if pc ≠ "" then pc else t.CheckCmd) = "" ∨
        cenv.checkOk
          (replaceStr (if pc ≠ "" then pc else t.CheckCmd) stagingToken t.Staging) = true))) ∧
    ((if pc ≠ "" then pc else t.CheckCmd) = "" →
      ∀ cmd, Ev.checkRun cmd ∉ (runCheckNotify cenv t pc pn).2) ∧
    ((if pn ≠ "" then pn else t.NotifyCmd) = "" →
      ∀ cmd, Ev.notifyRun cmd ∉ (runCheckNotify cenv t pc pn).2) := by
  unfold runCheckNotify notifyPart
  split_ifs <;> simp_all <;> (try (split_ifs <;> simp_all))

/-- A template with no check command and a notify command. -/
def tNoCheck : Template :=
  { Source := "", Dest := "", CheckCmd := "", NotifyCmd := "n",
    NotifyLbl := "", NotifyOutput := false, Staging := "" }

/-- Witness for C8: with an empty check slot nothing is checked and the
notify command runs. -/
theorem C8_check_gates_notify_witness :
    Ev.checkRun "x" ∉ (runCheckNotify cenvTrue tNoCheck "" "").2 ∧
    (∃ cmd, Ev.notifyRun cmd ∈ (runCheckNotify cenvTrue tNoCheck "" "").2) :=
  ⟨(C8_check_gates_notify cenvTrue tNoCheck "" "").2.1 (by decide) "x",
   (C8_check_gates_notify cenvTrue tNoCheck "" "").1.mpr ⟨by decide, Or.inl (by decide)⟩⟩

/-! ## C7 -/

/-- C7: in label-fanout mode the check-then-notify pair is executed for
each matching container independently and in order; the loop at
runner.go:192-201 discards each pair's error, so a failure for one
container does not prevent the remaining containers from being
processed. -/
theorem C7_fanout_failure_isolated
    (cenv : CmdEnv) (ctx : Except String (List Container)) (t : Template)
    (cs l1 l2 : List Container) (c : Container) (m : String)
    (hlbl : t.NotifyLbl ≠ "") (hgrp : getLabelGroup ctx t.NotifyLbl = .ok cs)
    (hsplit : cs = l1 ++ c :: l2)
    (hfail : (perContainerRun cenv t c).1 = .err m) :
    commandPhase cenv ctx t =
      (l1.map (fun d => (perContainerRun cenv t d).2)).flatten ++
      ((perContainerRun cenv t c).2 ++
       (l2.map (fun d => (perContainerRun cenv t d).2)).flatten) := by
  unfold commandPhase
  rw [if_neg hlbl]
  simp only [hgrp]
  subst hsplit
  simp

/-- The host used by concrete containers in witnesses. -/
def hostEx : Host := ⟨"", "", "", "", []⟩

/-- A container named `n` carrying the label `role=worker`. -/
def cWorker (n : String) : Container :=
  ⟨n, "", "", "", "", "", [("role", "worker")], hostEx⟩

/-- A shell oracle on which exactly the check command `chk c2` fails. -/
def cenvFailC2 : CmdEnv := ⟨fun s => !(s = "chk c2"), fun _ => true⟩

/-- A fanout template notifying the label group `role:worker` with
per-container command tokens. -/
def tFanEx : Template :=
  { Source := "", Dest := "", CheckCmd := "chk " ++ tokStr "Name",
    NotifyCmd := "ntf " ++ tokStr "Name", NotifyLbl := "role:worker",
    NotifyOutput := false, Staging := "" }

/-- Three workers; the check for the middle one will fail. -/
def ctxFan : Except String (List Container) :=
  .ok [cWorker "c1", cWorker "c2", cWorker "c3"]

/-- Witness for C7 (the spec's Scenario D): the check for container 2 of
3 fails, its notify is skipped, and containers 1 and 3 still run their
check+notify pairs. -/
theorem C7_fanout_failure_isolated_witness :
    (perContainerRun cenvFailC2 tFanEx (cWorker "c2")).1 = .err "Check command failed" ∧
    commandPhase cenvFailC2 ctxFan tFanEx =
      ([cWorker "c1"].map (fun d => (perContainerRun cenvFailC2 tFanEx d).2)).flatten ++
      ((perContainerRun cenvFailC2 tFanEx (cWorker "c2")).2 ++
       ([cWorker "c3"].map (fun d => (perContainerRun cenvFailC2 tFanEx d).2)).flatten) ∧
    commandPhase cenvFailC2 ctxFan tFanEx =
      [Ev.checkRun "chk c1", Ev.notifyRun "ntf c1", Ev.checkRun "chk c2",
       Ev.checkRun "chk c3", Ev.notifyRun "ntf c3"] :=
  ⟨by decide,
   C7_fanout_failure_isolated cenvFailC2 ctxFan tFanEx
     [cWorker "c1", cWorker "c2", cWorker "c3"] [cWorker "c1"] [cWorker "c3"]
     (cWorker "c2") "Check command failed" (by decide) (by rfl) rfl (by decide),
   by decide⟩

/-! ## C6 -/

/-- Rebuilding a string from its character list is the identity. -/
theorem strmk_data (s : String) : String.mk s.data = s := by
  cases s
  rfl

/-- String append acts as list append on the character data. -/
theorem strAppend_data (s t : String) : (s ++ t).data = s.data ++ t.data := by
  cases s
  cases t
  rfl

/-- Splitting a colon-free list yields the single whole list. -/
theorem splitOnColon_no_colon (l : List Char) (h : ':' ∉ l) :
    splitOnColon l = [l] := by
  induction l with
  | nil => rfl
  | cons c rest ih =>
    have hc : c ≠ ':' := fun hcc => h (hcc ▸ List.mem_cons_self c rest)
    have hrest : ':' ∉ rest := fun hr => h (List.mem_cons_of_mem c hr)
    simp [splitOnColon, hc, ih hrest]

/-- Splitting at the first colon separates the colon-free head. -/
theorem splitOnColon_append (n v : List Char) (h : ':' ∉ n) :
    splitOnColon (n ++ ':' :: v) = n :: splitOnColon v := by
  induction n with
  | nil => simp [splitOnColon]
  | cons c m ih =>
    have hc : c ≠ ':' := fun hcc => h (hcc ▸ List.mem_cons_self c m)
    have hm : ':' ∉ m := fun hr => h (List.mem_cons_of_mem c hr)
    simp only [List.cons_append, splitOnColon, if_neg hc, List.append_eq, ih hm]

/-- A colon-free selector carries no value part. -/
theorem labelNameValue_plain (name : String) (h : ':' ∉ name.data) :
    labelNameValue name = (name, "") := by
  unfold labelNameValue
  rw [splitOnColon_no_colon _ h]

/-- A `name:value` selector splits into name and value when neither part
contains a colon. -/
theorem labelNameValue_pair (name value : String)
    (hn : ':' ∉ name.data) (hv : ':' ∉ value.data) :
    labelNameValue (name ++ ":" ++ value) = (name, value) := by
  unfold labelNameValue
  have hcolon : (":" : String).data = [':'] := by decide
  have hdata : (name ++ ":" ++ value).data = name.data ++ ':' :: value.data := by
    rw [strAppend_data, strAppend_data, List.append_assoc, hcolon]
    rfl
  rw [hdata, splitOnColon_append _ _ hn, splitOnColon_no_colon _ hv]

/-- Membership characterisation of `getLabelGroup` on a successful
context: a container is selected iff it carries a label entry whose key
equals the selector's name and whose value matches (any value when the
selector's value part is empty). -/
theorem getLabelGroup_ok_mem (cs : List Container) (label : String)
    (hl : label ≠ "") (c : Container) :
    ∃ sel, getLabelGroup (.ok cs) label = .ok sel ∧
      (c ∈ sel ↔ c ∈ cs ∧ ∃ p ∈ c.Labels,
        p.1 = (labelNameValue label).1 ∧
        ((labelNameValue label).2 = "" ∨ p.2 = (labelNameValue label).2)) := by
  refine ⟨cs.flatMap (fun a =>
      (a.Labels.filter
          (fun p => p.1 = (labelNameValue label).1 &&
            ((labelNameValue label).2 = "" || p.2 = (labelNameValue label).2))).map
        (fun _ => a)), by simp [getLabelGroup, hl], ?_⟩
  constructor
  · intro hc
    rw [List.mem_flatMap] at hc
    obtain ⟨a, ha, hin⟩ := hc
    rw [List.mem_map] at hin
    obtain ⟨p, hp, hac⟩ := hin
    subst hac
    rw [List.mem_filter] at hp
    obtain ⟨hpl, hq⟩ := hp
    refine ⟨ha, p, hpl, ?_⟩
    simpa using hq
  · rintro ⟨hc, p, hp, hcond⟩
    rw [List.mem_flatMap]
    exact ⟨c, hc, List.mem_map.mpr ⟨p, List.mem_filter.mpr ⟨hp, by simpa using hcond⟩, rfl⟩⟩

/-- C6 (amended): for a bare selector `name` every container carrying
label key `name` matches, regardless of value; for `name:value` with a
NON-EMPTY value only exact value matches are selected; a selector
`name:` with an empty value part behaves like the bare form and matches
any value (runner.go:248-278), not only the empty value. -/
theorem C6_label_selector_matching
    (cs : List Container) (name value : String) (c : Container)
    (hn : ':' ∉ name.data) (hv : ':' ∉ value.data) (hne : name ≠ "") :
    (∃ sel, getLabelGroup (.ok cs) name = .ok sel ∧
      (c ∈ sel ↔ c ∈ cs ∧ ∃ p ∈ c.Labels, p.1 = name)) ∧
    (value ≠ "" →
      ∃ sel, getLabelGroup (.ok cs) (name ++ ":" ++ value) = .ok sel ∧
        (c ∈ sel ↔ c ∈ cs ∧ ∃ p ∈ c.Labels, p.1 = name ∧ p.2 = value)) ∧
    (value = "" →
      ∃ sel, getLabelGroup (.ok cs) (name ++ ":" ++ value) = .ok sel ∧
        (c ∈ sel ↔ c ∈ cs ∧ ∃ p ∈ c.Labels, p.1 = name)) := by
  have hlbl : name ++ ":" ++ value ≠ "" := by
    intro habs
    have : (name ++ ":" ++ value).data = [] := by rw [habs]
    rw [strAppend_data, strAppend_data] at this
    simp at this
  refine ⟨?_, ?_, ?_⟩
  · obtain ⟨sel, hsel, hiff⟩ := getLabelGroup_ok_mem cs name hne c
    rw [labelNameValue_plain name hn] at hiff
    exact ⟨sel, hsel, by simpa using hiff⟩
  · intro hvne
    obtain ⟨sel, hsel, hiff⟩ := getLabelGroup_ok_mem cs (name ++ ":" ++ value) hlbl c
    rw [labelNameValue_pair name value hn hv] at hiff
    refine ⟨sel, hsel, ?_⟩
    simpa [hvne] using hiff
  · intro hveq
    obtain ⟨sel, hsel, hiff⟩ := getLabelGroup_ok_mem cs (name ++ ":" ++ value) hlbl c
    rw [labelNameValue_pair name value hn hv] at hiff
    refine ⟨sel, hsel, ?_⟩
    simpa [hveq] using hiff

/-- Counterexample to C6 as stated: the selector `role:` is of the form
`name:value` with the empty value, yet the container whose label is
`role=worker` is selected although its value is not exactly `""`. -/
theorem C6_empty_value_counterexample :
    getLabelGroup (.ok [cWorker "c1"]) "role:" = .ok [cWorker "c1"] ∧
    ¬ ∃ p ∈ (cWorker "c1").Labels, p.1 = "role" ∧ p.2 = "" := by
  refine ⟨by rfl, by decide⟩

/-- Witness for the amended C6 at a concrete snapshot. -/
theorem C6_label_selector_matching_witness :
    (∃ sel, getLabelGroup (.ok [cWorker "c1"]) "role" = .ok sel ∧
      (cWorker "c1" ∈ sel ↔ cWorker "c1" ∈ [cWorker "c1"] ∧
        ∃ p ∈ (cWorker "c1").Labels, p.1 = "role")) ∧
    (∃ sel, getLabelGroup (.ok [cWorker "c1"]) ("role" ++ ":" ++ "worker") = .ok sel ∧
      (cWorker "c1" ∈ sel ↔ cWorker "c1" ∈ [cWorker "c1"] ∧
        ∃ p ∈ (cWorker "c1").Labels, p.1 = "role" ∧ p.2 = "worker")) :=
  ⟨(C6_label_selector_matching [cWorker "c1"] "role" "worker" (cWorker "c1")
      (by decide) (by decide) (by decide)).1,
   (C6_label_selector_matching [cWorker "c1"] "role" "worker" (cWorker "c1")
      (by decide) (by decide) (by decide)).2.1 (by decide)⟩

/-! ## C9 -/

/-- Word-or-dot characters are not braces. -/
theorem word_not_brace (c : Char) (h : isWordDot c = true) : isBrace c = false := by
  cases hb : isBrace c
  · rfl
  · exfalso
    have hc : c = lbrace ∨ c = rbrace := by simpa [isBrace] using hb
    rcases hc with rfl | rfl
    · exact absurd h (by decide)
    · exact absurd h (by decide)

/-- The greedy class match of the token regexp consumes exactly the key. -/
theorem takeWhile_key (key : List Char) (h : ∀ ch ∈ key, isWordDot ch = true) :
    (key ++ [rbrace, rbrace]).takeWhile isWordDot = key := by
  induction key with
  | nil => decide
  | cons a as ih =>
    have ha : isWordDot a = true := h a (List.mem_cons_self a as)
    have has : ∀ ch ∈ as, isWordDot ch = true :=
      fun ch hch => h ch (List.mem_cons_of_mem a hch)
    simp [List.takeWhile_cons, ha, ih has]

/-- After the key only the two closing braces remain. -/
theorem dropWhile_key (key : List Char) (h : ∀ ch ∈ key, isWordDot ch = true) :
    (key ++ [rbrace, rbrace]).dropWhile isWordDot = [rbrace, rbrace] := by
  induction key with
  | nil => decide
  | cons a as ih =>
    have ha : isWordDot a = true := h a (List.mem_cons_self a as)
    have has : ∀ ch ∈ as, isWordDot ch = true :=
      fun ch hch => h ch (List.mem_cons_of_mem a hch)
    simp [List.dropWhile_cons, ha, ih has]

/-- The token regexp matches a full `{{key}}` text at the head of the
input, leaving nothing behind. -/
theorem tryToken_token (key : List Char) (h : ∀ ch ∈ key, isWordDot ch = true) :
    tryToken (lbrace :: lbrace :: (key ++ [rbrace, rbrace])) =
      some (lbrace :: lbrace :: (key ++ [rbrace, rbrace]), []) := by
  simp [tryToken, dropWhile_key key h, takeWhile_key key h]

/-- The token scan of the empty input finds nothing, for any fuel. -/
theorem findTokensF_nil (fuel : Nat) : findTokensF fuel [] = [] := by
  cases fuel <;> rfl

/-- A command consisting of exactly one `{{key}}` token yields exactly
that one match. -/
theorem findTokens_token (key : List Char) (h : ∀ ch ∈ key, isWordDot ch = true) :
    findTokens (lbrace :: lbrace :: (key ++ [rbrace, rbrace])) =
      [lbrace :: lbrace :: (key ++ [rbrace, rbrace])] := by
  unfold findTokens
  have hlen : (lbrace :: lbrace :: (key ++ [rbrace, rbrace])).length
      = key.length + 3 + 1 := by
    simp
  rw [hlen]
  simp [findTokensF, tryToken_token key h, findTokensF_nil]

/-- Prefix comparison of a list with itself succeeds. -/
theorem beginsWith_refl (l : List Char) : beginsWith l l = true := by
  induction l with
  | nil => rfl
  | cons a as ih => simp [beginsWith, ih]

/-- Replacing a whole non-empty string by `new` yields `new`. -/
theorem replaceAll_self (s new : List Char) (h : s ≠ []) :
    replaceAll s s new = new := by
  unfold replaceAll
  cases s with
  | nil => exact absurd rfl h
  | cons c rest => simp [replaceAllF, beginsWith_refl, List.drop_length]

/-- `dropWhile` leaves a list alone when its head already fails the
predicate. -/
theorem dropWhile_all_false (q : Char → Bool) (l : List Char)
    (h : ∀ ch ∈ l, q ch = false) : l.dropWhile q = l := by
  cases l with
  | nil => rfl
  | cons a as => simp [List.dropWhile_cons, h a (List.mem_cons_self a as)]

/-- Trimming the braces from a `{{key}}` token recovers the key. -/
theorem trimBraces_token (key : List Char) (h : ∀ ch ∈ key, isWordDot ch = true) :
    trimBraces (lbrace :: lbrace :: (key ++ [rbrace, rbrace])) = key := by
  cases key with
  | nil => decide
  | cons a as =>
    have ha : isBrace a = false := word_not_brace a (h a (List.mem_cons_self a as))
    have hbl : isBrace lbrace = true := by decide
    have hbr : isBrace rbrace = true := by decide
    have hall : ∀ ch ∈ (a :: as).reverse, isBrace ch = false := by
      intro ch hch
      exact word_not_brace ch (h ch (List.mem_reverse.mp hch))
    have hrev : (a :: (as ++ [rbrace, rbrace])).reverse
        = rbrace :: rbrace :: (a :: as).reverse := by
      simp
    unfold trimBraces
    rw [List.dropWhile_cons, if_pos hbl, List.dropWhile_cons, if_pos hbl,
        List.cons_append, List.dropWhile_cons, if_neg (by simp [ha]), hrev,
        List.dropWhile_cons, if_pos hbr, List.dropWhile_cons, if_pos hbr,
        dropWhile_all_false _ _ hall, List.reverse_reverse]

/-- C9 (amended): per-container substitution of a single token
`{{key}}`/`{{.key}}` (leading dot stripped) never fails and behaves as
follows: when the stripped key CONTAINS the text `Labels.` anywhere, the
token is replaced by the container's label value for the portion of the
key after its first dot (the empty string when the label is absent);
otherwise, when the key names a `Container` struct field, the token is
replaced by that field's string value (the empty string for the
non-string fields `Labels` and `Host`); all remaining tokens are left
unsubstituted.  (The original claim's "tokens whose name matches no
known container attribute stay unsubstituted" fails for keys such as
`XLabels.y`, which hit the `Labels.` containment test.) -/
theorem C9_token_substitution
    (c : Container) (key : List Char) (h : ∀ ch ∈ key, isWordDot ch = true) :
    parseCmdTemplate c (String.mk (lbrace :: lbrace :: (key ++ [rbrace, rbrace]))) =
      (if containsSub (stripLeadingDot key) ("Labels.".data) then
        lookupLabel c.Labels (String.mk (splitAfterLabel (stripLeadingDot key)))
      else if containerFieldNames.contains (String.mk (stripLeadingDot key)) then
        containerFieldString c (String.mk (stripLeadingDot key))
      else String.mk (lbrace :: lbrace :: (key ++ [rbrace, rbrace]))) := by
  have htok : (String.mk (lbrace :: lbrace :: (key ++ [rbrace, rbrace]))).data
      = lbrace :: lbrace :: (key ++ [rbrace, rbrace]) := rfl
  unfold parseCmdTemplate
  rw [htok, findTokens_token key h, List.foldl_cons, List.foldl_nil]
  simp only [substituteToken, trimBraces_token key h]
  by_cases h1 : containsSub (stripLeadingDot key) ("Labels.".data) = true
  · rw [if_pos h1, if_pos h1, replaceAll_self _ _ (by simp), strmk_data]
  · rw [if_neg h1, if_neg h1]
    by_cases h2 : containerFieldNames.contains (String.mk (stripLeadingDot key)) = true
    · rw [if_pos h2, if_pos h2, replaceAll_self _ _ (by simp), strmk_data]
    · rw [if_neg h2, if_neg h2]

/-- Counterexample to C9 as stated: the token `{{XLabels.role}}` names no
known container attribute and is not of the form `{{Labels.<key>}}`, yet
it is substituted (with the container's `role` label value) instead of
being left in place: the code tests `strings.Contains(key, "Labels.")`
rather than a prefix (runner.go:295). -/
theorem C9_unknown_token_substituted :
    parseCmdTemplate (cWorker "c1") (tokStr "XLabels.role") = "worker" ∧
    containerFieldNames.contains "XLabels.role" = false ∧
    beginsWith ("Labels.".data) ("XLabels.role".data) = false ∧
    "worker" ≠ tokStr "XLabels.role" := by
  refine ⟨by decide, by decide, by decide, by decide⟩

/-- Witness for the amended C9: substitution of `{{Name}}` for a
concrete container, through the theorem and by direct evaluation. -/
theorem C9_token_substitution_witness :
    parseCmdTemplate (cWorker "c1") (String.mk (lbrace :: lbrace :: ("Name".data ++ [rbrace, rbrace]))) =
      (if containsSub (stripLeadingDot ("Name".data)) ("Labels.".data) then
        lookupLabel (cWorker "c1").Labels
          (String.mk (splitAfterLabel (stripLeadingDot ("Name".data))))
      else if containerFieldNames.contains (String.mk (stripLeadingDot ("Name".data))) then
        containerFieldString (cWorker "c1") (String.mk (stripLeadingDot ("Name".data)))
      else String.mk (lbrace :: lbrace :: ("Name".data ++ [rbrace, rbrace]))) ∧
    parseCmdTemplate (cWorker "c1") (tokStr "Name") = "c1" :=
  ⟨C9_token_substitution (cWorker "c1") ("Name".data) (by decide), by decide⟩

end RancherGen
